import Mathlib

/-!
Verification of the NOTAM parsing and airspace-geometry engine of the
`iran_map` repository (`src/backend/app/services/notam.py`), against its
natural-language specification.

The Python source is shallowly embedded: raw notice text is a `List Char`,
Python `re` searches over the concrete patterns used by the source are
modelled as executable scanners, Python floats carrying coordinates are
modelled as `ℚ` (the spec's tolerances are far coarser than double
rounding), `datetime` values as a record of calendar fields, and the
SQLAlchemy-backed store as a list of rows.  Fallible Python code
(returning `None` or raising) is modelled with `Option`/`Except`.
-/

namespace IranMap

/-! ### Python character classes and primitive string operations

These model the exact semantics of the CPython operations the source
relies on, for the ASCII inputs the NOTAM wire format consists of:
`\s` / `str.strip`, `\d`, `[A-Z]`, `str.upper`, `int(...)`,
`str.replace` and `str.split("/")`. -/

/-- Python's `\s` class and `str.strip` default set (ASCII range). -/
def pySpace (c : Char) : Bool :=
  c = ' ' || c = '\t' || c = '\n' || c = '\r' || c = '\x0b' || c = '\x0c'

def pyDigit (c : Char) : Bool := c.isDigit

def pyUpperAlpha (c : Char) : Bool := 'A' ≤ c && c ≤ 'Z'

/-- `str.strip()`: drop leading and trailing whitespace. -/
def pyStrip (cs : List Char) : List Char :=
  ((cs.dropWhile pySpace).reverse.dropWhile pySpace).reverse

/-- `str.upper()` (ASCII). -/
def pyUpper (cs : List Char) : List Char := cs.map Char.toUpper

/-- Numeric value of a digit string (most significant digit first). -/
def digitsVal (cs : List Char) : Nat :=
  cs.foldl (fun a c => a * 10 + (c.toNat - '0'.toNat)) 0

/-- Python `int(s)`: strips surrounding whitespace, allows one optional
sign, then requires a non-empty run of digits; `none` models the
`ValueError` every caller in the source catches. -/
def pyInt (cs : List Char) : Option Int :=
  match pyStrip cs with
  | '+' :: ds => if ds ≠ [] ∧ ds.all pyDigit then some (digitsVal ds) else none
  | '-' :: ds => if ds ≠ [] ∧ ds.all pyDigit then some (-(digitsVal ds : Int)) else none
  | ds => if ds ≠ [] ∧ ds.all pyDigit then some (digitsVal ds) else none

/-- `str.replace("Q)", "")`: left-to-right, non-overlapping. -/
def removeQParen : List Char → List Char
  | 'Q' :: ')' :: rest => removeQParen rest
  | c :: rest => c :: removeQParen rest
  | [] => []

/-- `str.split("/")`: splits at every `'/'`, keeping empty pieces
(`"".split("/") == [""]`). -/
def pySplitSlash : List Char → List (List Char)
  | [] => [[]]
  | '/' :: rest => [] :: pySplitSlash rest
  | c :: rest =>
    match pySplitSlash rest with
    | [] => [[c]]
    | p :: ps => (c :: p) :: ps

/-! ### `datetime` model -/

/-- A `datetime.datetime(..., tzinfo=timezone.utc)` value; only the fields
the source constructs and compares. -/
structure PyDateTime where
  year : Nat
  month : Nat
  day : Nat
  hour : Nat
  minute : Nat
deriving DecidableEq, Repr

def isLeapYear (y : Nat) : Bool := y % 4 = 0 && (y % 100 ≠ 0 || y % 400 = 0)

def daysInMonth (y m : Nat) : Nat :=
  if m = 2 then (if isLeapYear y then 29 else 28)
  else if m = 4 ∨ m = 6 ∨ m = 9 ∨ m = 11 then 30
  else 31

/-- The `datetime` constructor: `none` models the `ValueError` raised on
out-of-range fields. -/
def mkDatetime? (y mo d h mi : Int) : Option PyDateTime :=
  if 1 ≤ y ∧ y ≤ 9999 ∧ 1 ≤ mo ∧ mo ≤ 12 ∧ 1 ≤ d ∧ d ≤ (daysInMonth y.toNat mo.toNat : Int) ∧
     0 ≤ h ∧ h ≤ 23 ∧ 0 ≤ mi ∧ mi ≤ 59
  then some ⟨y.toNat, mo.toNat, d.toNat, h.toNat, mi.toNat⟩
  else none

/-- Chronological strict order on UTC datetimes (lexicographic on the
calendar fields, as CPython compares them). -/
def PyDateTime.lt (a b : PyDateTime) : Bool :=
  if a.year ≠ b.year then decide (a.year < b.year)
  else if a.month ≠ b.month then decide (a.month < b.month)
  else if a.day ≠ b.day then decide (a.day < b.day)
  else if a.hour ≠ b.hour then decide (a.hour < b.hour)
  else decide (a.minute < b.minute)

def PyDateTime.le (a b : PyDateTime) : Bool := !(PyDateTime.lt b a)

/-! ### `parse_notam_datetime` (notam.py lines 87-114) -/

/-- `parse_notam_datetime`: decodes a `YYMMDDHHMM` field with century
offset `2000 + YY`; the literal token `PERM` (any case) and every
malformed or out-of-range value decode to `none`. -/
def parse_notam_datetime (dt_str : List Char) : Option PyDateTime :=
  if dt_str = [] ∨ pyUpper dt_str = "PERM".data then none
  else
    let s := pyUpper (pyStrip dt_str)
    if s.length ≥ 10 then
      match pyInt (s.take 2), pyInt ((s.drop 2).take 2), pyInt ((s.drop 4).take 2),
            pyInt ((s.drop 6).take 2), pyInt ((s.drop 8).take 2) with
      | some y, some mo, some d, some h, some mi => mkDatetime? (2000 + y) mo d h mi
      | _, _, _, _, _ => none
    else none

/-! ### `parse_icao_coordinates` (notam.py lines 35-84) -/

/-- Shape test for the anchored pattern
`(\d{2})(\d{2})([NS])(\d{3})(\d{2})([EW])` as a prefix of `s` (the
source's alternate pattern `(\d{4})([NS])(\d{5})([EW])` matches exactly
the same strings, so the fallback branch is unreachable). -/
def icaoShape (s : List Char) : Bool :=
  s.length ≥ 11 && (s.take 4).all pyDigit &&
    (s.get? 4 == some 'N' || s.get? 4 == some 'S') &&
    ((s.drop 5).take 5).all pyDigit &&
    (s.get? 10 == some 'E' || s.get? 10 == some 'W')

/-- `parse_icao_coordinates`: ICAO `DDMM[N|S]DDDMM[E|W]` to decimal
degrees, `decimal = degrees + minutes/60`, negated for S/W.

The decimal-degree float is represented exactly in arc-minutes as an
integer: a returned value `v` stands for the decimal degrees `v / 60`
(so `degrees + minutes/60` is carried as `60*degrees + minutes`).  The
source never does arithmetic on these floats other than testing them
against `0.0` by truthiness, which corresponds exactly to `v = 0`. -/
def parse_icao_coordinates (coord_str : List Char) : Option (Int × Int) :=
  if coord_str = [] then none
  else
    let s := pyStrip coord_str
    if icaoShape s then
      let lat0 : Int := 60 * (digitsVal (s.take 2) : Int) + (digitsVal ((s.drop 2).take 2) : Int)
      let lon0 : Int := 60 * (digitsVal ((s.drop 5).take 3) : Int) + (digitsVal ((s.drop 8).take 2) : Int)
      let lat : Int := if s.get? 4 = some 'S' then -lat0 else lat0
      let lon : Int := if s.get? 10 = some 'W' then -lon0 else lon0
      some (lat, lon)
    else none

/-! ### The `re.search` scans of `parse_notam_text` (notam.py lines 249-254, 263)

Each Python pattern is modelled by a matcher that tries to match at the
head of a suffix, and `reSearch` returns the leftmost match, exactly as
`re.search` does.  Backtracking is irrelevant for the digit patterns
because `\s` and `\d` are disjoint. -/

/-- Leftmost match: try the matcher at every position, left to right. -/
def reSearch {α : Type} (m : List Char → Option α) : List Char → Option α
  | [] => m []
  | c :: cs =>
    match m (c :: cs) with
    | some r => some r
    | none => reSearch m cs

/-- `([A-Z]\d{4}/\d{2})` at the head of the suffix. -/
def matchIdAt : List Char → Option (List Char)
  | a :: b :: c :: d :: e :: '/' :: f :: g :: _ =>
    if pyUpperAlpha a && pyDigit b && pyDigit c && pyDigit d && pyDigit e &&
       pyDigit f && pyDigit g
    then some [a, b, c, d, e, '/', f, g] else none
  | _ => none

/-- `B\)\s*(\d{10})` at the head of the suffix. -/
def matchBAt : List Char → Option (List Char)
  | 'B' :: ')' :: rest =>
    let r := (rest.dropWhile pySpace).take 10
    if r.length = 10 ∧ r.all pyDigit then some r else none
  | _ => none

/-- `C\)\s*(\d{10}|PERM)` with `re.IGNORECASE` at the head of the suffix. -/
def matchCAt : List Char → Option (List Char)
  | c :: ')' :: rest =>
    if c = 'C' ∨ c = 'c' then
      let r := rest.dropWhile pySpace
      if (r.take 10).length = 10 ∧ (r.take 10).all pyDigit then some (r.take 10)
      else if pyUpper (r.take 4) = "PERM".data then some (r.take 4)
      else none
    else none
  | _ => none

/-- `(\d{4}[NS]\d{5}[EW])` at the head of the suffix (the bare-coordinate
fallback pattern). -/
def matchCoordAt : List Char → Option (List Char)
  | a :: b :: c :: d :: h1 :: e :: f :: g :: i :: j :: h2 :: _ =>
    if pyDigit a && pyDigit b && pyDigit c && pyDigit d && (h1 = 'N' || h1 = 'S') &&
       pyDigit e && pyDigit f && pyDigit g && pyDigit i && pyDigit j &&
       (h2 = 'E' || h2 = 'W')
    then some [a, b, c, d, h1, e, f, g, i, j, h2] else none
  | _ => none

/-- The `\s*([^\n]+)` tail of the `Q\)\s*([^\n]+)` pattern: greedily
consume whitespace, backtracking one character at a time until `[^\n]+`
can start. -/
def qTail : List Char → Option (List Char)
  | [] => none
  | c :: cs =>
    if pySpace c then
      match qTail cs with
      | some r => some r
      | none => if c ≠ '\n' then some ((c :: cs).takeWhile (fun x => x ≠ '\n')) else none
    else some ((c :: cs).takeWhile (fun x => x ≠ '\n'))

/-- `Q\)\s*([^\n]+)` at the head of the suffix. -/
def matchQAt : List Char → Option (List Char)
  | 'Q' :: ')' :: rest => qTail rest
  | _ => none

/-! ### `parse_q_line` (notam.py lines 117-193) -/

/-- The dict built by `parse_q_line`.  Every key is always present in the
returned dict; `codes`/`traffic`/`fir` carry `None` as `none`, the
vertical limits default to `0`/`999`, and `lat`/`lon` hold arc-minutes
(see `parse_icao_coordinates`). -/
structure QLineData where
  fir : Option (List Char) := none
  codes : Option (List Char) := none
  traffic : Option (List Char) := none
  lower : Int := 0
  upper : Int := 999
  lat : Option Int := none
  lon : Option Int := none
  radius_nm : Option Int := none
deriving DecidableEq, Repr

/-- `parse_q_line`: strip the `Q)` prefix (the source's `replace`
removes every occurrence), split on `/`, and fill the dict.  The `try
... except ValueError: pass` around the limits is `Option.getD`, and the
`except ValueError` on the radius digits yields the 5 nm default.  Note
that the source only parses radius digits when the combined token has at
least 14 characters, i.e. when all three digit positions are present.
The `if coords:` guard in the source is a Python tuple-truthiness test,
which any returned pair passes. -/
def parse_q_line (q_line : List Char) : QLineData :=
  if q_line = [] then {}
  else
    let parts := pySplitSlash (pyStrip (removeQParen q_line))
    let coord_radius := pyStrip (parts.getD 7 [])
    let coords := if parts.length ≥ 8 ∧ coord_radius.length ≥ 11
      then parse_icao_coordinates (coord_radius.take 11) else none
    { fir := some (pyStrip (parts.getD 0 []))
      codes := if parts.length ≥ 2 then some (pyStrip (parts.getD 1 [])) else none
      traffic := if parts.length ≥ 3 then some (pyStrip (parts.getD 2 [])) else none
      lower := if parts.length ≥ 6 then (pyInt (pyStrip (parts.getD 5 []))).getD 0 else 0
      upper := if parts.length ≥ 7 then (pyInt (pyStrip (parts.getD 6 []))).getD 999 else 999
      lat := coords.map Prod.fst
      lon := coords.map Prod.snd
      radius_nm := if parts.length ≥ 8 ∧ coord_radius.length ≥ 11 then
          (if coord_radius.length ≥ 14
           then some ((pyInt ((coord_radius.drop 11).take 3)).getD 5)
           else some 5)
        else none }

/-! ### `parse_notam_text` (notam.py lines 231-315) and the schema record -/

/-- Python falsiness of an optional float: `None` and `0.0` are falsy. -/
def pyFalsyNum : Option Int → Bool
  | none => true
  | some v => v == 0

/-- Python truthiness of an optional string: `None` and `""` are falsy. -/
def pyTruthyStr : Option (List Char) → Bool
  | none => false
  | some s => s ≠ []

/- The airspace-type constants of `models.py` (lines 60-64). -/

def AIRSPACE_TYPE_RESTRICTION : List Char := "airspace_restriction".data
def AIRSPACE_TYPE_CLOSURE : List Char := "airport_closure".data
def AIRSPACE_TYPE_HAZARD : List Char := "hazard_notice".data
def AIRSPACE_TYPE_TEMPORARY : List Char := "temporary_restriction".data
def AIRSPACE_TYPE_WARNING : List Char := "warning_area".data

/-- Python's substring test `needle in hay`. -/
def pySubstr (needle : List Char) : List Char → Bool
  | [] => needle.isEmpty
  | c :: rest => needle.isPrefixOf (c :: rest) || pySubstr needle rest

/-- The `airspace_type` cascade of `parse_notam_text` (lines 282-290):
substring tests on the qualifier codes, first match wins. -/
def classifyCodes (codes : List Char) : List Char :=
  if pySubstr "FAL".data codes || pySubstr "FAX".data codes then AIRSPACE_TYPE_CLOSURE
  else if pySubstr "WPL".data codes || pySubstr "WRL".data codes then AIRSPACE_TYPE_WARNING
  else if pySubstr "RDC".data codes then AIRSPACE_TYPE_HAZARD
  else if pySubstr "RTC".data codes || pySubstr "RRC".data codes ||
          pySubstr "RPC".data codes then AIRSPACE_TYPE_TEMPORARY
  else AIRSPACE_TYPE_RESTRICTION

/-- `schemas.AirspaceEventCreate` (schemas.py lines 83-106), restricted to
the contentful fields: the purely presentational `title`, `description`,
`raw_text` and `q_line` strings are not modelled.  `center_lat` and
`center_lon` are in arc-minutes (decimal degrees × 60, exact). -/
structure AirspaceEventCreate where
  ts_start : PyDateTime
  ts_end : Option PyDateTime
  is_permanent : Bool
  center_lat : Int
  center_lon : Int
  radius_nm : Option Int
  lower_limit : Int
  upper_limit : Int
  airspace_type : List Char
  source : List Char
  notam_id : Option (List Char)
  fir : Option (List Char)
  notam_codes : List Char
deriving DecidableEq, Repr

/-- How `parse_notam_text` can fail to return a record: returning `None`
(no coordinates obtainable), or an exception escaping it — pydantic's
`ValidationError` when `ts_start` is `None` for a required `datetime`
field, or the `TypeError` of `'FAL' in None` when the qualifier line
yielded no codes but coordinates came from the fallback scan.  The batch
treats both identically (skip the block). -/
inductive ParseErr where
  | missingCoordinates
  | raised
deriving DecidableEq, Repr

instance {ε α : Type} [DecidableEq ε] [DecidableEq α] : DecidableEq (Except ε α) := fun a b =>
  match a, b with
  | .error e, .error f =>
    match decEq e f with
    | isTrue h => isTrue (h ▸ rfl)
    | isFalse h => isFalse fun hh => h (Except.error.inj hh)
  | .ok x, .ok y =>
    match decEq x y with
    | isTrue h => isTrue (h ▸ rfl)
    | isFalse h => isFalse fun hh => h (Except.ok.inj hh)
  | .error _, .ok _ => isFalse fun hh => Except.noConfusion hh
  | .ok _, .error _ => isFalse fun hh => Except.noConfusion hh

/-- The state of the `q_data` dict after the Q-line phase of
`parse_notam_text` (lines 256-269).  `radKey`/`codesKey` distinguish a
key that is absent from the dict (so `dict.get` falls to its default)
from a key that is present holding `None`. -/
structure QExtract where
  lat : Option Int
  lon : Option Int
  radKey : Option (Option Int)
  codesKey : Option (Option (List Char))
  fir : Option (List Char)
  lower : Int
  upper : Int
deriving DecidableEq, Repr

/-- Lines 256-259: `q_data = parse_q_line(...)` when a `Q)` line is
found, else the empty dict. -/
def qPhase (text : List Char) : QExtract :=
  match reSearch matchQAt text with
  | some q =>
    let qd := parse_q_line q
    ⟨qd.lat, qd.lon, some qd.radius_nm, some qd.codes, qd.fir, qd.lower, qd.upper⟩
  | none => ⟨none, none, none, none, none, 0, 999⟩

/-- Lines 262-269: when `q_data.get('lat')` is falsy (absent, `None`, or
`0.0`), scan the whole text for a bare coordinate token and overwrite
`lat`, `lon` and `radius_nm` (default 5). -/
def coordFallback (text : List Char) (qe : QExtract) : QExtract :=
  if pyFalsyNum qe.lat then
    match reSearch matchCoordAt text with
    | some ctok =>
      match parse_icao_coordinates ctok with
      | some p => { qe with lat := some p.1, lon := some p.2, radKey := some (some 5) }
      | none => qe
    | none => qe
  else qe

/-- `parse_notam_text`: extract the labeled fields by the source's
regexes, reject when no non-zero coordinates are available, decode the
times (missing `B)` falls back to the ingestion time `now`), classify,
and assemble the record. -/
def parse_notam_text (now : PyDateTime) (text : List Char) :
    Except ParseErr AirspaceEventCreate :=
  if text = [] then .error .missingCoordinates
  else
    let qe := coordFallback text (qPhase text)
    if pyFalsyNum qe.lat || pyFalsyNum qe.lon then .error .missingCoordinates
    else
      match (match reSearch matchBAt text with
             | some b => parse_notam_datetime b
             | none => some now) with
      | none => .error .raised
      | some t =>
        match (match qe.codesKey with
               | none => some []
               | some v => v) with
        | none => .error .raised
        | some codes =>
          .ok { ts_start := t
                ts_end := match reSearch matchCAt text with
                  | some c => parse_notam_datetime c
                  | none => none
                is_permanent := match reSearch matchCAt text with
                  | some c => decide (pyUpper c = "PERM".data)
                  | none => false
                center_lat := (qe.lat).getD 0
                center_lon := (qe.lon).getD 0
                radius_nm := match qe.radKey with
                  | none => some 5
                  | some v => v
                lower_limit := qe.lower
                upper_limit := qe.upper
                airspace_type := classifyCodes codes
                source := "notam".data
                notam_id := reSearch matchIdAt text
                fir := qe.fir
                notam_codes := codes }

/-! ### `create_circle_polygon` (notam.py lines 196-228)

The source emits a WKT `POLYGON((lon lat, ...))` string; the embedding
produces the list of `(lon, lat)` vertex pairs the string interpolates,
over `ℝ` since the placement uses trigonometry. -/

/-- `math.radians`. -/
noncomputable def radians (x : ℝ) : ℝ := x * Real.pi / 180

/-- `create_circle_polygon`: `num_points` evenly spaced samples of an
ellipse-corrected circle around the center, then the first point
repeated to close the ring (the source appends `points[0]`). -/
noncomputable def create_circle_polygon (center_lat center_lon radius_nm : ℝ)
    (num_points : ℕ := 32) : List (ℝ × ℝ) :=
  let radius_km := radius_nm * 1.852
  let radius_lat := radius_km / 111.0
  let radius_lon := radius_km / (111.0 * Real.cos (radians center_lat))
  let points := (List.range num_points).map (fun i =>
    let angle := 2 * Real.pi * i / num_points
    (center_lon + radius_lon * Real.cos angle, center_lat + radius_lat * Real.sin angle))
  points ++ points.take 1

/-! ### `NOTAMService` (notam.py lines 318-465): the store contract -/

/-- A row of the `airspace_events` table (`models.AirspaceEvent`,
models.py lines 67-101), with the same field restriction as
`AirspaceEventCreate`.  The WKT polygon stored in the `geometry` column
is the deterministic image of `(center_lat, center_lon, radius_nm)`
under `create_circle_polygon`, so the column is represented by those
parameters (`none` when the source stores SQL `NULL`); latitudes and
longitudes are in arc-minutes as everywhere else. -/
structure AirspaceEvent where
  ts_start : PyDateTime
  ts_end : Option PyDateTime
  is_permanent : Bool
  geometry : Option (Int × Int × Int)
  center_lat : Int
  center_lon : Int
  radius_nm : Option Int
  lower_limit : Int
  upper_limit : Int
  airspace_type : List Char
  source : List Char
  notam_id : Option (List Char)
  fir : Option (List Char)
  notam_codes : List Char
deriving DecidableEq, Repr

/-- Lines 342-371: build the database row from a parsed record.  The
geometry is created only when `center_lat`, `center_lon` and `radius_nm`
are all truthy (`0.0` and `None` are falsy). -/
def mkDbEvent (r : AirspaceEventCreate) : AirspaceEvent :=
  { ts_start := r.ts_start
    ts_end := r.ts_end
    is_permanent := r.is_permanent
    geometry :=
      if r.center_lat ≠ 0 ∧ r.center_lon ≠ 0 ∧ ¬ pyFalsyNum r.radius_nm
      then some (r.center_lat, r.center_lon, r.radius_nm.getD 0)
      else none
    center_lat := r.center_lat
    center_lon := r.center_lon
    radius_nm := r.radius_nm
    lower_limit := r.lower_limit
    upper_limit := r.upper_limit
    airspace_type := r.airspace_type
    source := r.source
    notam_id := r.notam_id
    fir := r.fir
    notam_codes := r.notam_codes }

/-- `NOTAMService.parse_and_store` (lines 324-380): parse each block,
skip it when parsing returns no record or raises, skip it when its
truthy `notam_id` is already present (the session sees rows added
earlier in the same batch), otherwise append the row; returns the new
store and the stored count. -/
def parse_and_store (now : PyDateTime) (texts : List (List Char))
    (db : List AirspaceEvent) : List AirspaceEvent × Nat :=
  match texts with
  | [] => (db, 0)
  | t :: rest =>
    match parse_notam_text now t with
    | .error _ => parse_and_store now rest db
    | .ok r =>
      if pyTruthyStr r.notam_id ∧ db.any (fun e => e.notam_id == r.notam_id)
      then parse_and_store now rest db
      else
        let res := parse_and_store now rest (db ++ [mkDbEvent r])
        (res.1, res.2 + 1)

/-- The active-window filter of `NOTAMService.get_active_airspace`
(lines 386-389): `ts_start <= now AND (ts_end >= now OR is_permanent)`;
a SQL `NULL` `ts_end` fails the comparison. -/
def isActiveAt (now : PyDateTime) (e : AirspaceEvent) : Bool :=
  PyDateTime.le e.ts_start now &&
    ((match e.ts_end with
      | some te => PyDateTime.le now te
      | none => false) || e.is_permanent)

/-- `NOTAMService.get_active_airspace` (lines 382-394): the active-window
query, then optionally (`if fir:` — `None` and `""` are falsy) an
FIR-equality filter; a row whose `fir` is `NULL` never matches. -/
def get_active_airspace (now : PyDateTime) (fir : Option (List Char))
    (db : List AirspaceEvent) : List AirspaceEvent :=
  let q := db.filter (isActiveAt now)
  match fir with
  | some f => if f ≠ [] then q.filter (fun e => e.fir == some f) else q
  | none => q

/-- The deletion predicate of `NOTAMService.cleanup_expired` (lines
459-462): `is_permanent == False AND ts_end < now`; a SQL `NULL`
`ts_end` fails the comparison, so such rows are never deleted. -/
def isExpiredAt (now : PyDateTime) (e : AirspaceEvent) : Bool :=
  !e.is_permanent &&
    (match e.ts_end with
     | some te => PyDateTime.lt te now
     | none => false)

/-- `NOTAMService.cleanup_expired` (lines 455-465): delete the expired
non-permanent rows, returning the surviving store and the deleted
count. -/
def cleanup_expired (now : PyDateTime) (db : List AirspaceEvent) :
    List AirspaceEvent × Nat :=
  (db.filter (fun e => !isExpiredAt now e), (db.filter (isExpiredAt now)).length)

/-! ### Concrete notice texts and records used by the claim theorems -/

/-- A fixed ingestion instant used wherever a concrete `now` is needed. -/
def now0 : PyDateTime := ⟨2025, 1, 1, 0, 0⟩

/-- The end-to-end example input of the spec (§8). -/
def c1_text : List Char :=
  "A0123/25 NOTAMN\nQ) OIIX/QRTCA/IV/NBO/W/000/120/3541N05124E025\nA) OIII\nB) 2501120000\nC) 2501140000\nE) TEST".data

/-- A notice whose end field is the permanent sentinel in mixed case. -/
def c3w_text : List Char :=
  "Q) OIIX/QRTCA/IV/NBO/W/000/120/3541N05124E010\nB) 2501120000\nC) PeRm".data

/-- The record `c3w_text` parses to. -/
def c3w_rec : AirspaceEventCreate :=
  { ts_start := ⟨2025, 1, 12, 0, 0⟩, ts_end := none, is_permanent := true
    center_lat := 2141, center_lon := 3084, radius_nm := some 10
    lower_limit := 0, upper_limit := 120
    airspace_type := AIRSPACE_TYPE_TEMPORARY, source := "notam".data
    notam_id := none, fir := some "OIIX".data, notam_codes := "QRTCA".data }

/-- A qualifier line whose combined token carries all three radius digits. -/
def c4w_line : List Char := "OIIX/QRTCA/IV/NBO/W/000/120/3541N05124E025".data

/-- A qualifier line whose combined token carries only two radius digits. -/
def c4x_line : List Char := "OIIX/QRTCA/IV/NBO/W/000/120/3541N05124E25".data

/-- A text block with no qualifier line and no bare coordinate pattern. -/
def c5w_text : List Char :=
  "A0500/25 NOTAMN SOMETHING WITH NO LOCATION B) 2501120000".data

/-- A well-formed notice with a notice identifier, for the dedup claim. -/
def c7w_text : List Char :=
  "A0999/25 NOTAMN\nQ) OIIX/QRDCA/IV/NBO/W/000/150/3629N04611E015\nB) 2501120000\nC) 2501140000".data

/-- The record `c7w_text` parses to. -/
def c7w_rec : AirspaceEventCreate :=
  { ts_start := ⟨2025, 1, 12, 0, 0⟩, ts_end := some ⟨2025, 1, 14, 0, 0⟩, is_permanent := false
    center_lat := 2189, center_lon := 2771, radius_nm := some 15
    lower_limit := 0, upper_limit := 150
    airspace_type := AIRSPACE_TYPE_HAZARD, source := "notam".data
    notam_id := some "A0999/25".data, fir := some "OIIX".data, notam_codes := "QRDCA".data }

/-- A notice whose `B)` field holds the out-of-range value month 13. -/
def c8x_text : List Char :=
  "A0222/25\nQ) OIIX/QRTCA/IV/NBO/W/000/120/3541N05124E025\nB) 2513120000\nC) 2501140000".data

/-- A notice with coordinates but no `B)` start field at all. -/
def c8w_text : List Char :=
  "Q) OIIX/QFALC/IV/NBO/A/000/999/3239N05240E005\nC) 2501140000".data

/-- The record `c8w_text` parses to at ingestion time `now0`. -/
def c8w_rec : AirspaceEventCreate :=
  { ts_start := now0, ts_end := some ⟨2025, 1, 14, 0, 0⟩, is_permanent := false
    center_lat := 1959, center_lon := 3160, radius_nm := some 5
    lower_limit := 0, upper_limit := 999
    airspace_type := AIRSPACE_TYPE_CLOSURE, source := "notam".data
    notam_id := none, fir := some "OIIX".data, notam_codes := "QFALC".data }

/-- A notice whose only coordinate token decodes to latitude exactly 0. -/
def c10_text : List Char :=
  "A0333/25\nQ) OIIX/QRTCA/IV/NBO/W/000/120/0000N05124E025\nB) 2501120000\nC) 2501140000".data

/-- A query instant for the store-level witnesses. -/
def now1 : PyDateTime := ⟨2025, 6, 15, 12, 0⟩

/-- A permanent stored row. -/
def c2w_r1 : AirspaceEvent :=
  { ts_start := ⟨2025, 1, 1, 0, 0⟩, ts_end := none, is_permanent := true
    geometry := none, center_lat := 2141, center_lon := 3084, radius_nm := some 10
    lower_limit := 0, upper_limit := 120
    airspace_type := AIRSPACE_TYPE_TEMPORARY, source := "notam".data
    notam_id := some "A0001/25".data, fir := some "OIIX".data, notam_codes := "QRTCA".data }

/-- A stored row whose end lies in the future of `now1`. -/
def c2w_r2 : AirspaceEvent :=
  { ts_start := ⟨2025, 6, 1, 0, 0⟩, ts_end := some ⟨2025, 7, 1, 0, 0⟩, is_permanent := false
    geometry := none, center_lat := 2189, center_lon := 2771, radius_nm := some 15
    lower_limit := 0, upper_limit := 150
    airspace_type := AIRSPACE_TYPE_HAZARD, source := "notam".data
    notam_id := some "A0002/25".data, fir := some "OIIX".data, notam_codes := "QRDCA".data }

/-- A stored row whose end lies in the past of `now1`. -/
def c2w_r3 : AirspaceEvent :=
  { ts_start := ⟨2025, 5, 1, 0, 0⟩, ts_end := some ⟨2025, 6, 1, 0, 0⟩, is_permanent := false
    geometry := none, center_lat := 1959, center_lon := 3160, radius_nm := some 5
    lower_limit := 0, upper_limit := 999
    airspace_type := AIRSPACE_TYPE_CLOSURE, source := "notam".data
    notam_id := some "A0003/25".data, fir := some "OIIX".data, notam_codes := "QFALC".data }

/-- A stored row with a `NULL` end and `is_permanent = False`. -/
def c9w_rec : AirspaceEvent :=
  { ts_start := ⟨2024, 1, 1, 0, 0⟩, ts_end := none, is_permanent := false
    geometry := none, center_lat := 2141, center_lon := 3084, radius_nm := some 5
    lower_limit := 0, upper_limit := 999
    airspace_type := AIRSPACE_TYPE_RESTRICTION, source := "notam".data
    notam_id := none, fir := some "OIIX".data, notam_codes := [] }

/-! ## Theorems -/

set_option maxRecDepth 10000

/-! ### Helper lemmas -/

theorem pySpace_of_digit (c : Char) (h : pyDigit c = true) : pySpace c = false := by
  simp only [pyDigit, Char.isDigit] at h
  simp only [pySpace]
  rcases Bool.and_eq_true .. |>.mp h with ⟨h1, h2⟩
  have h1' := of_decide_eq_true h1
  have h2' := of_decide_eq_true h2
  simp only [Bool.or_eq_false_iff, decide_eq_false_iff_not]
  refine ⟨⟨⟨⟨⟨?_, ?_⟩, ?_⟩, ?_⟩, ?_⟩, ?_⟩ <;> (intro hc; subst hc; revert h1' h2'; decide)

theorem dropWhile_pySpace_of_digits (ds : List Char) (h : ∀ c ∈ ds, pyDigit c = true) :
    ds.dropWhile pySpace = ds := by
  cases ds with
  | nil => rfl
  | cons d t =>
    have := pySpace_of_digit d (h d (by simp))
    simp [List.dropWhile, this]

theorem pyStrip_of_digits (ds : List Char) (h : ds.all pyDigit = true) : pyStrip ds = ds := by
  rw [List.all_eq_true] at h
  unfold pyStrip
  rw [dropWhile_pySpace_of_digits ds h]
  rw [dropWhile_pySpace_of_digits ds.reverse (fun c hc => h c (List.mem_reverse.mp hc))]
  exact List.reverse_reverse ds

/-- A non-empty all-digit string is accepted by Python `int` with its
plain base-10 value. -/
theorem pyInt_digits (ds : List Char) (h0 : ds ≠ []) (h : ds.all pyDigit = true) :
    pyInt ds = some (digitsVal ds) := by
  unfold pyInt
  rw [pyStrip_of_digits ds h]
  rw [List.all_eq_true] at h
  split
  · exfalso
    have : pyDigit '+' = true := h '+' (by simp)
    revert this
    decide
  · exfalso
    have : pyDigit '-' = true := h '-' (by simp)
    revert this
    decide
  · have hall : (fun l => l.all pyDigit) ds = true := by
      rw [List.all_eq_true]
      exact h
    simp [h0, hall]

/-- Projections of a successfully parsed record: the start time comes
from the `B)` match (falling back to `now`), and the end time and the
permanence flag come from the `C)` match. -/
theorem parse_notam_text_ok_fields (now : PyDateTime) (text : List Char)
    (r : AirspaceEventCreate) (h : parse_notam_text now text = .ok r) :
    (match reSearch matchBAt text with
     | some b => parse_notam_datetime b
     | none => some now) = some r.ts_start ∧
    r.ts_end = (match reSearch matchCAt text with
                | some c => parse_notam_datetime c
                | none => none) ∧
    r.is_permanent = (match reSearch matchCAt text with
                      | some c => decide (pyUpper c = "PERM".data)
                      | none => false) := by
  simp only [parse_notam_text] at h
  split at h
  · exact absurd h (by simp)
  · split at h
    · exact absurd h (by simp)
    · split at h
      · exact absurd h (by simp)
      · split at h
        · exact absurd h (by simp)
        · injection h with h'
          subst h'
          refine ⟨?_, rfl, rfl⟩
          assumption

/-! ### The claims -/

/-- C1: parsing a notice text containing the qualifier line
`Q) OIIX/QRTCA/IV/NBO/W/000/120/3541N05124E025`, start field
`B) 2501120000` and end field `C) 2501140000` produces a record with FIR
`OIIX`, category `temporary_restriction`, center latitude ≈ 35.683 and
longitude ≈ 51.400 (within 1/60 degree — the exact values are 2141 and
3084 arc-minutes), radius 25 nm, limits 0/120, start
2025-01-12T00:00:00Z, end 2025-01-14T00:00:00Z, and
`is_permanent = false`. -/
theorem C1_end_to_end :
    parse_notam_text now0 c1_text = Except.ok
      { ts_start := ⟨2025, 1, 12, 0, 0⟩
        ts_end := some ⟨2025, 1, 14, 0, 0⟩
        is_permanent := false
        center_lat := 2141
        center_lon := 3084
        radius_nm := some 25
        lower_limit := 0
        upper_limit := 120
        airspace_type := AIRSPACE_TYPE_TEMPORARY
        source := "notam".data
        notam_id := some "A0123/25".data
        fir := some "OIIX".data
        notam_codes := "QRTCA".data } ∧
    AIRSPACE_TYPE_TEMPORARY = "temporary_restriction".data ∧
    |(2141 : ℚ) / 60 - 35683 / 1000| ≤ 1 / 60 ∧
    |(3084 : ℚ) / 60 - 514 / 10| ≤ 1 / 60 :=
  ⟨by decide, by decide, by rw [abs_le]; constructor <;> norm_num,
   by rw [abs_le]; constructor <;> norm_num⟩

/-- C2: for any time `now` and a store of exactly three records whose
starts are `<= now` — one permanent, one non-permanent with an end
`>= now`, one non-permanent with an end `< now` — the active query
returns exactly the first two, and cleanup deletes exactly the third,
returning the other two records entirely unchanged. -/
theorem C2_active_window_correctness (now : PyDateTime)
    (r1 r2 r3 : AirspaceEvent) (e2 e3 : PyDateTime)
    (h1s : PyDateTime.le r1.ts_start now = true)
    (h2s : PyDateTime.le r2.ts_start now = true)
    (h3s : PyDateTime.le r3.ts_start now = true)
    (h1p : r1.is_permanent = true)
    (h2p : r2.is_permanent = false)
    (h3p : r3.is_permanent = false)
    (h2e : r2.ts_end = some e2) (h2f : PyDateTime.le now e2 = true)
    (h3e : r3.ts_end = some e3) (h3past : PyDateTime.lt e3 now = true) :
    get_active_airspace now none [r1, r2, r3] = [r1, r2] ∧
    cleanup_expired now [r1, r2, r3] = ([r1, r2], 1) := by
  have hlt2 : PyDateTime.lt e2 now = false := by
    unfold PyDateTime.le at h2f
    simpa using h2f
  have hle3 : PyDateTime.le now e3 = false := by
    unfold PyDateTime.le
    simp [h3past]
  constructor
  · simp [get_active_airspace, isActiveAt, h1s, h2s, h3s, h1p, h2p, h3p, h2e, h2f, h3e, hle3]
  · simp [cleanup_expired, isExpiredAt, h1p, h2p, h3p, h2e, h3e, hlt2, h3past]

/-- Witness for C2 at a concrete store and query time. -/
theorem C2_active_window_witness :
    (PyDateTime.le c2w_r1.ts_start now1 = true ∧
     PyDateTime.le c2w_r2.ts_start now1 = true ∧
     PyDateTime.le c2w_r3.ts_start now1 = true ∧
     c2w_r1.is_permanent = true ∧ c2w_r2.is_permanent = false ∧
     c2w_r3.is_permanent = false ∧
     c2w_r2.ts_end = some ⟨2025, 7, 1, 0, 0⟩ ∧
     PyDateTime.le now1 ⟨2025, 7, 1, 0, 0⟩ = true ∧
     c2w_r3.ts_end = some ⟨2025, 6, 1, 0, 0⟩ ∧
     PyDateTime.lt ⟨2025, 6, 1, 0, 0⟩ now1 = true) ∧
    get_active_airspace now1 none [c2w_r1, c2w_r2, c2w_r3] = [c2w_r1, c2w_r2] ∧
    cleanup_expired now1 [c2w_r1, c2w_r2, c2w_r3] = ([c2w_r1, c2w_r2], 1) :=
  ⟨⟨by decide, by decide, by decide, by decide, by decide, by decide, by decide,
    by decide, by decide, by decide⟩,
   C2_active_window_correctness now1 c2w_r1 c2w_r2 c2w_r3 ⟨2025, 7, 1, 0, 0⟩ ⟨2025, 6, 1, 0, 0⟩
     (by decide) (by decide) (by decide) (by decide) (by decide) (by decide)
     (by decide) (by decide) (by decide) (by decide)⟩

/-- C3: an end field captured by the `C)` pattern whose uppercasing is
`PERM` yields `is_permanent = true` and a null end on any successfully
parsed record, and the ten-digit end field `2501120800` decodes to the
concrete UTC instant 2025-01-12T08:00:00Z, the year being `2000 + YY`. -/
theorem C3_permanent_sentinel :
    (∀ (now : PyDateTime) (text c : List Char) (r : AirspaceEventCreate),
      reSearch matchCAt text = some c → pyUpper c = "PERM".data →
      parse_notam_text now text = .ok r →
      r.is_permanent = true ∧ r.ts_end = none) ∧
    parse_notam_datetime "2501120800".data = some ⟨2025, 1, 12, 8, 0⟩ := by
  constructor
  · intro now text c r hc hup hok
    obtain ⟨-, hend, hperm⟩ := parse_notam_text_ok_fields now text r hok
    rw [hc] at hend hperm
    refine ⟨by rw [hperm]; simp [hup], ?_⟩
    rw [hend]
    unfold parse_notam_datetime
    simp [hup]
  · decide

/-- Witness for C3 at a concrete notice whose end field is `PeRm`. -/
theorem C3_permanent_sentinel_witness :
    parse_notam_text now0 c3w_text = Except.ok c3w_rec ∧
    c3w_rec.is_permanent = true ∧ c3w_rec.ts_end = none :=
  ⟨by decide,
   C3_permanent_sentinel.1 now0 c3w_text "PeRm".data c3w_rec (by decide) (by decide) (by decide)⟩

/-- C4 counterexample: with only two radius digits after a valid
11-character point (`3541N05124E25`), the decoded radius is the default
5 nm, not the digits' value 25 — the source reads radius digits only
from a combined token of length at least 14. -/
theorem C4_radius_counterexample :
    (parse_q_line c4x_line).radius_nm = some 5 ∧
    (parse_q_line c4x_line).radius_nm ≠ some 25 :=
  ⟨by decide, by decide⟩

/-- C4 (amended): when the eighth slash-separated position is a valid
11-character ICAO point followed by `k ≤ 3` radius digits, the decoded
radius equals the digits' numeric value when `k = 3` (all three digit
positions present) and the default 5 nm when `k < 3`. -/
theorem C4_radius_decoding (s coord ds : List Char)
    (hs : s ≠ [])
    (hlen : (pySplitSlash (pyStrip (removeQParen s))).length ≥ 8)
    (hp7 : pyStrip ((pySplitSlash (pyStrip (removeQParen s))).getD 7 []) = coord ++ ds)
    (hcoord : icaoShape coord = true) (hclen : coord.length = 11)
    (hds : ds.all pyDigit = true) (hk : ds.length ≤ 3) :
    (parse_q_line s).radius_nm =
      some (if ds.length = 3 then (digitsVal ds : Int) else 5) := by
  unfold parse_q_line
  rw [if_neg hs]
  simp only [hp7]
  have hlen2 : (coord ++ ds).length = 11 + ds.length := by
    simp [List.length_append, hclen]
  by_cases h3 : ds.length = 3
  · have h14 : (coord ++ ds).length ≥ 14 := by omega
    rw [if_pos ⟨hlen, by omega⟩, if_pos h14]
    have hdrop : (coord ++ ds).drop 11 = ds := by
      rw [← hclen]
      exact List.drop_left coord ds
    rw [hdrop]
    have htake : ds.take 3 = ds := by
      rw [← h3]
      exact List.take_length ds
    rw [htake]
    rw [pyInt_digits ds (by intro hnil; rw [hnil] at h3; simp at h3) hds]
    simp [h3]
  · have h14 : ¬ ((coord ++ ds).length ≥ 14) := by omega
    rw [if_pos ⟨hlen, by omega⟩, if_neg h14]
    simp [h3]

/-- Witness for the amended C4 at the three-digit token `3541N05124E025`. -/
theorem C4_radius_decoding_witness :
    (parse_q_line c4w_line).radius_nm = some 25 :=
  (C4_radius_decoding c4w_line "3541N05124E".data "025".data
    (by decide) (by decide) (by decide) (by decide) (by decide) (by decide)
    (by decide)).trans (by decide)

/-- C5: a text block with no qualifier line and no bare coordinate
pattern parses to the missing-coordinates rejection, and a batch
containing that block stores exactly what the batch without it stores
(the block contributes zero stored records and, the stored count being
unchanged while the block count grows by one, exactly one skip) without
raising. -/
theorem C5_missing_coordinate_rejection (now : PyDateTime) (text : List Char)
    (hq : reSearch matchQAt text = none)
    (hc : reSearch matchCoordAt text = none) :
    parse_notam_text now text = .error .missingCoordinates ∧
    ∀ (pre post : List (List Char)) (db : List AirspaceEvent),
      parse_and_store now (pre ++ text :: post) db = parse_and_store now (pre ++ post) db := by
  have hparse : parse_notam_text now text = .error .missingCoordinates := by
    by_cases htext : text = []
    · simp [parse_notam_text, htext]
    · simp [parse_notam_text, htext, qPhase, coordFallback, hq, hc, pyFalsyNum]
  refine ⟨hparse, ?_⟩
  intro pre post db
  induction pre generalizing db with
  | nil => simp only [List.nil_append, parse_and_store, hparse]
  | cons t pre ih =>
    simp only [List.cons_append, parse_and_store, List.append_eq]
    cases parse_notam_text now t with
    | error e => exact ih db
    | ok r =>
      split
      · exact ih db
      · simp only [ih]

/-- Witness for C5 at a concrete block with no location information. -/
theorem C5_missing_coordinate_witness :
    reSearch matchQAt c5w_text = none ∧ reSearch matchCoordAt c5w_text = none ∧
    parse_notam_text now0 c5w_text = Except.error ParseErr.missingCoordinates ∧
    parse_and_store now0 ([] ++ c5w_text :: []) [] = parse_and_store now0 ([] ++ []) [] :=
  ⟨by decide, by decide,
   (C5_missing_coordinate_rejection now0 c5w_text (by decide) (by decide)).1,
   (C5_missing_coordinate_rejection now0 c5w_text (by decide) (by decide)).2 [] [] []⟩

/-- C6: for every center and strictly positive radius, the generated
circle ring has exactly 33 points for `num_points = 32`, its first and
last coordinate pairs are identical, and vertex `i` is placed at
longitude `lon + radius_nm·1.852/(111·cos(radians lat))·cos(2πi/32)` and
latitude `lat + radius_nm·1.852/111·sin(2πi/32)`. -/
theorem C6_polygon_closure (lat lon r : ℝ) (hr : 0 < r) :
    (create_circle_polygon lat lon r 32).length = 33 ∧
    (create_circle_polygon lat lon r 32).head? = (create_circle_polygon lat lon r 32).getLast? ∧
    ∀ i : ℕ, i < 32 →
      (create_circle_polygon lat lon r 32).get? i =
        some (lon + r * 1.852 / (111.0 * Real.cos (radians lat)) * Real.cos (2 * Real.pi * i / 32),
              lat + r * 1.852 / 111.0 * Real.sin (2 * Real.pi * i / 32)) := by
  set f : ℕ → ℝ × ℝ := fun i =>
    (lon + r * 1.852 / (111.0 * Real.cos (radians lat)) * Real.cos (2 * Real.pi * (i : ℝ) / ((32 : ℕ) : ℝ)),
     lat + r * 1.852 / 111.0 * Real.sin (2 * Real.pi * (i : ℝ) / ((32 : ℕ) : ℝ))) with hf
  have hpoly : create_circle_polygon lat lon r 32 =
      (List.range 32).map f ++ ((List.range 32).map f).take 1 := rfl
  have hne : (List.range 32).map f ≠ [] := by simp
  obtain ⟨a, t, hat⟩ := List.exists_cons_of_ne_nil hne
  refine ⟨?_, ?_, ?_⟩
  · rw [hpoly]
    simp
  · rw [hpoly, hat]
    rw [List.take_succ_cons, List.take_zero]
    rw [List.getLast?_append_of_ne_nil _ (by simp)]
    rfl
  · intro i hi
    rw [hpoly, List.get?_eq_getElem?, List.getElem?_append_left (by simpa using hi),
        List.getElem?_map, List.getElem?_range hi]
    simp only [Option.map_some', hf]
    norm_num

/-- Witness for C6 at the unit radius. -/
theorem C6_polygon_closure_witness :
    (0 : ℝ) < 1 ∧ (create_circle_polygon 0 0 1 32).length = 33 ∧
    (create_circle_polygon 0 0 1 32).head? = (create_circle_polygon 0 0 1 32).getLast? :=
  ⟨one_pos, (C6_polygon_closure 0 0 1 one_pos).1, (C6_polygon_closure 0 0 1 one_pos).2.1⟩

/-- C7: storing a notice with a non-null (hence non-empty) notice
identifier into an empty store inserts exactly one row, and storing the
same notice again is a silent no-op: the store and every field of the
existing row are unchanged and no error is raised. -/
theorem C7_idempotent_ingestion (now : PyDateTime) (text : List Char)
    (r : AirspaceEventCreate) (nid : List Char)
    (hok : parse_notam_text now text = .ok r)
    (hid : r.notam_id = some nid) (hne : nid ≠ []) :
    parse_and_store now [text] [] = ([mkDbEvent r], 1) ∧
    parse_and_store now [text] [mkDbEvent r] = ([mkDbEvent r], 0) := by
  have htr : pyTruthyStr r.notam_id = true := by simp [pyTruthyStr, hid, hne]
  constructor
  · simp [parse_and_store, hok]
  · have hbeq : (mkDbEvent r).notam_id == r.notam_id := by simp [mkDbEvent]
    simp [parse_and_store, hok, htr, hbeq]

/-- Witness for C7 at a concrete notice with identifier `A0999/25`. -/
theorem C7_idempotent_ingestion_witness :
    parse_notam_text now0 c7w_text = Except.ok c7w_rec ∧
    parse_and_store now0 [c7w_text] [] = ([mkDbEvent c7w_rec], 1) ∧
    parse_and_store now0 [c7w_text] [mkDbEvent c7w_rec] = ([mkDbEvent c7w_rec], 0) :=
  ⟨by decide,
   (C7_idempotent_ingestion now0 c7w_text c7w_rec "A0999/25".data
     (by decide) (by decide) (by decide)).1,
   (C7_idempotent_ingestion now0 c7w_text c7w_rec "A0999/25".data
     (by decide) (by decide) (by decide)).2⟩

/-- C8 counterexample: a `B)` field holding the ten-digit but
out-of-range value `2513120000` (month 13) does not degrade to the
ingestion time — the record constructor receives a `None` start for a
required field, the exception is caught by the batch, and the notice is
rejected: nothing is stored. -/
theorem C8_out_of_range_counterexample :
    parse_notam_text now0 c8x_text = Except.error ParseErr.raised ∧
    parse_and_store now0 [c8x_text] [] = ([], 0) :=
  ⟨by decide, by decide⟩

/-- C8 (amended): a start field whose value never matches the ten-digit
`B)` pattern (in particular any non-numeric value) degrades to the
ingestion time `now` on every successfully parsed record; a ten-digit
but out-of-range value instead causes the notice to be rejected
(`C8_out_of_range_counterexample`). -/
theorem C8_start_fallback (now : PyDateTime) (text : List Char) (r : AirspaceEventCreate)
    (hb : reSearch matchBAt text = none)
    (hok : parse_notam_text now text = .ok r) :
    r.ts_start = now := by
  obtain ⟨hstart, -, -⟩ := parse_notam_text_ok_fields now text r hok
  rw [hb] at hstart
  exact (Option.some.inj hstart).symm

/-- Witness for the amended C8 at a notice with no `B)` field. -/
theorem C8_start_fallback_witness :
    reSearch matchBAt c8w_text = none ∧
    parse_notam_text now0 c8w_text = Except.ok c8w_rec ∧
    c8w_rec.ts_start = now0 :=
  ⟨by decide, by decide,
   C8_start_fallback now0 c8w_text c8w_rec (by decide) (by decide)⟩

/-- C9: a stored record whose end is null and whose permanence flag is
false is never returned by the active query, regardless of its start
time, the query time, and the FIR filter. -/
theorem C9_null_end_never_active (now : PyDateTime) (fir : Option (List Char))
    (db : List AirspaceEvent) (e : AirspaceEvent)
    (hend : e.ts_end = none) (hperm : e.is_permanent = false) :
    e ∉ get_active_airspace now fir db := by
  intro hmem
  have hact : isActiveAt now e = true := by
    cases fir with
    | none =>
      simp only [get_active_airspace] at hmem
      exact (List.mem_filter.mp hmem).2
    | some f =>
      simp only [get_active_airspace] at hmem
      split at hmem
      · exact (List.mem_filter.mp (List.mem_filter.mp hmem).1).2
      · exact (List.mem_filter.mp hmem).2
  simp [isActiveAt, hend, hperm] at hact

/-- Witness for C9 at a concrete stored row. -/
theorem C9_null_end_witness :
    c9w_rec.ts_end = none ∧ c9w_rec.is_permanent = false ∧
    c9w_rec ∉ get_active_airspace now0 none [c9w_rec] :=
  ⟨rfl, rfl, C9_null_end_never_active now0 none [c9w_rec] c9w_rec rfl rfl⟩

/-- C10: the coordinate decoder succeeds on `0000N05124E` (latitude
exactly 0, longitude 51.4° = 3084 arc-minutes) and the qualifier-line
decoder records that latitude, yet the parser — which tests coordinate
presence by numeric truthiness, under which `0.0` is falsy — rejects the
whole notice as missing coordinates and the batch stores nothing. -/
theorem C10_zero_latitude_rejected :
    parse_icao_coordinates "0000N05124E".data = some (0, 3084) ∧
    (parse_q_line "OIIX/QRTCA/IV/NBO/W/000/120/0000N05124E025".data).lat = some 0 ∧
    parse_notam_text now0 c10_text = Except.error ParseErr.missingCoordinates ∧
    parse_and_store now0 [c10_text] [] = ([], 0) :=
  ⟨by decide, by decide, by decide, by decide⟩

end IranMap
